import Mathlib

/-!
Verification of the AI_Chatbot client (`main.py`): a shallow embedding of the
request/response path — context loading, request payload assembly, the
urllib3-style retry policy of `setup_session`, the newline-delimited streaming
JSON decoder of `make_request`, and the error classification surfaced by
`chat_with_gpt` — together with theorems settling the specified properties.

Modelling conventions:
* Strings are Lean `String`s; Python's `str.strip()` is modelled by `pyStrip`
  (stripping the common ASCII whitespace characters at both ends).
* A line of the streamed response body is modelled by `StreamLine`: it is
  empty (skipped by the `if line:` guard), fails UTF-8 decoding
  (`line.decode` raises `UnicodeDecodeError`, which the code does NOT catch),
  fails JSON parsing (`json.loads` raises `json.JSONDecodeError`, caught and
  skipped), or parses to a JSON object whose `response` field (the fragment
  text) and `done` field are the given optional values (`json_obj.get`
  supplies the defaults `""` and `False`).
* `make_request` returns `Option` of the dictionary it builds:
  `some [(key, value)]` for a normal return, `none` when an uncaught
  exception (a `UnicodeDecodeError`) escapes the function.
* The outcome of `session.post` is an oracle value of type
  `TransportOutcome`: either a response (status, reason phrase, body lines)
  or a raised `requests` exception.
* The retry policy configured by `setup_session`
  (`Retry(total=5, status_forcelist=[429,500,502,503,504],
  allowed_methods=["POST"])`) is modelled by `sessionPost`: a server is a
  function from the 0-based attempt index to the HTTP status it returns;
  urllib3 performs the initial attempt plus up to `total` retries, and when
  a sixth forcelisted status arrives it raises `MaxRetryError`, which
  `requests` surfaces as `RetryError` (a `RequestException` that is not an
  `HTTPError`).
-/

/-- The Python whitespace characters stripped by `str.strip()` (ASCII part). -/
def pyIsSpace (c : Char) : Bool :=
  c = ' ' || c = '\t' || c = '\n' || c = '\r' || c = '\x0b' || c = '\x0c'

/-- Strip `pyIsSpace` characters from both ends of a character list. -/
def stripList (s : List Char) : List Char :=
  ((s.dropWhile pyIsSpace).reverse.dropWhile pyIsSpace).reverse

/-- Model of Python's `str.strip()` with no arguments. -/
def pyStrip (s : String) : String :=
  ⟨stripList s.data⟩

/-- A JSON value, as produced by `json.load` / `json.loads`. -/
inductive JsonValue where
  | null : JsonValue
  | bool (b : Bool) : JsonValue
  | num (n : Int) : JsonValue
  | str (s : String) : JsonValue
  | arr (elems : List JsonValue) : JsonValue
  | obj (fields : List (String × JsonValue)) : JsonValue

/-- Python truthiness of a JSON value (`if syllabus_data:`): `None`, `False`,
`0`, `""`, `[]` and `{}` are falsy, everything else truthy. -/
def JsonValue.isTruthy : JsonValue → Bool
  | .null => false
  | .bool b => b
  | .num n => n != 0
  | .str s => s != ""
  | .arr elems => !elems.isEmpty
  | .obj fields => !fields.isEmpty

/-- `OLLAMA_URL = os.getenv("OLLAMA_URL", "http://localhost:11434/api/generate")`
(default value; the environment override is outside the model). -/
def OLLAMA_URL : String := "http://localhost:11434/api/generate"

/-- `MODEL_NAME = os.getenv("MODEL_NAME", "mistral")` (default value). -/
def MODEL_NAME : String := "mistral"

/-- `SYLLABUS_FILE = 'syllabus.json'` -/
def SYLLABUS_FILE : String := "syllabus.json"

/-- Outcome of attempting to read and JSON-parse the syllabus file:
absent (`FileNotFoundError`), or content that parses to `some v`, or
content that raises `json.JSONDecodeError` (`none`). -/
inductive FileReadOutcome where
  | absent : FileReadOutcome
  | content (parsed : Option JsonValue) : FileReadOutcome

/-- `load_syllabus_data`: returns the parsed JSON on success and `{}` when
the file is absent or its content fails to parse (both handlers log and
return `{}`; the function raises nothing in these cases). -/
def load_syllabus_data : FileReadOutcome → JsonValue
  | .absent => JsonValue.obj []
  | .content none => JsonValue.obj []
  | .content (some v) => v

/-- The request payload built by `create_request_data`: `model` and `prompt`
are always present, `syllabus` is the optional third key. -/
structure RequestData where
  model : String
  prompt : String
  syllabus : Option JsonValue

/-- `create_request_data(prompt, syllabus_data)`: always sets `model` and
`prompt`; adds the `syllabus` key exactly when `syllabus_data` is truthy. -/
def create_request_data (prompt : String) (syllabus_data : JsonValue) : RequestData :=
  { model := MODEL_NAME
    prompt := prompt
    syllabus := if syllabus_data.isTruthy then some syllabus_data else none }

/-- One line yielded by `response.iter_lines()`. `frag text done` models a
line that decodes and parses to a JSON object whose `response` field (the
fragment text; the spec's `text`) is `text` and whose `done` field is
`done`, each `none` when the key is missing. -/
inductive StreamLine where
  | empty : StreamLine
  | decodeFail : StreamLine
  | jsonFail : StreamLine
  | frag (text : Option String) (done : Option Bool) : StreamLine
  deriving DecidableEq

/-- Whether a line is malformed at the JSON level (raises
`json.JSONDecodeError`, which the loop logs and skips). -/
def isMalformedLine : StreamLine → Bool
  | .jsonFail => true
  | _ => false

/-- The `for line in response.iter_lines():` loop of `make_request`, with the
accumulator `full_response`. Empty lines are skipped by `if line:`; a JSON
parse failure is caught and skipped; a UTF-8 decode failure raises an
uncaught `UnicodeDecodeError` (`none`); a parsed fragment appends its text
(default `""`) and, when its `done` field is true (default `False`),
breaks out of the loop. -/
def iterStream : List StreamLine → String → Option String
  | [], acc => some acc
  | .empty :: rest, acc => iterStream rest acc
  | .decodeFail :: _, _ => none
  | .jsonFail :: rest, acc => iterStream rest acc
  | .frag text done :: rest, acc =>
    let acc2 := acc ++ text.getD ""
    if done.getD false then some acc2 else iterStream rest acc2

/-- The concatenation, in order, of the texts of all parsed fragments of a
stream (what the loop accumulates when it never breaks). -/
def accText : List StreamLine → String
  | [] => ""
  | .empty :: rest => accText rest
  | .decodeFail :: rest => accText rest
  | .jsonFail :: rest => accText rest
  | .frag text _ :: rest => text.getD "" ++ accText rest

/-- A `requests` exception as discriminated by the `except` chain of
`make_request`. `retryError` is `requests.exceptions.RetryError`, raised when
the session's urllib3 retries are exhausted on a forcelisted status; it is a
`RequestException` but not an `HTTPError`. -/
inductive RequestsException where
  | httpError (detail : String) : RequestsException
  | connectionError : RequestsException
  | timeout : RequestsException
  | retryError : RequestsException
  | otherRequestError : RequestsException

/-- The message each `except` branch of `make_request` stores under the
`error` key. -/
def exceptionMessage : RequestsException → String
  | .httpError detail => "HTTP error: " ++ detail
  | .connectionError => "Connection error. Please check if the Ollama server is running."
  | .timeout => "The request timed out. Please try again later."
  | .retryError => "An unexpected error occurred."
  | .otherRequestError => "An unexpected error occurred."

/-- `requests.models.Response.raise_for_status`: returns the detail string of
the `HTTPError` it raises for a 4xx/5xx status, `none` otherwise. -/
def raise_for_status (status : Nat) (reason url : String) : Option String :=
  if 400 ≤ status ∧ status < 500 then
    some (toString status ++ " Client Error: " ++ reason ++ " for url: " ++ url)
  else if 500 ≤ status ∧ status < 600 then
    some (toString status ++ " Server Error: " ++ reason ++ " for url: " ++ url)
  else none

/-- What `session.post(url, json=data, timeout=10, stream=True)` produced:
either a response (status code, reason phrase, body lines) or a raised
`requests` exception. -/
inductive TransportOutcome where
  | response (status : Nat) (reason : String) (lines : List StreamLine) : TransportOutcome
  | exn (e : RequestsException) : TransportOutcome

/-- `make_request(url, data, session)` given the transport outcome `t`:
classifies raised exceptions into `{"error": ...}` records, raises for bad
statuses (caught by the same `except HTTPError` branch), otherwise runs the
streaming loop and returns `{"text": full_response.strip()}`. `none` models
an uncaught exception escaping the function. -/
def make_request (url : String) (data : RequestData) (t : TransportOutcome) :
    Option (List (String × String)) :=
  match data, t with
  | _, .exn e => some [("error", exceptionMessage e)]
  | _, .response status reason lines =>
    match raise_for_status status reason url with
    | some detail => some [("error", "HTTP error: " ++ detail)]
    | none =>
      match iterStream lines "" with
      | some acc => some [("text", pyStrip acc)]
      | none => none

/-- `chat_with_gpt(prompt, syllabus_data, session)`: builds the payload,
calls `make_request` on `OLLAMA_URL`, and returns either the prefixed error
text or `response_data.get("text", "No response text found.").strip()`.
`none` models the uncaught exception propagating through. -/
def chat_with_gpt (prompt : String) (syllabus_data : JsonValue)
    (t : TransportOutcome) : Option String :=
  match make_request OLLAMA_URL (create_request_data prompt syllabus_data) t with
  | none => none
  | some response_data =>
    match response_data.lookup "error" with
    | some msg => some ("An error occurred: " ++ msg)
    | none => some (pyStrip ((response_data.lookup "text").getD "No response text found."))

/-- `status_forcelist=[429, 500, 502, 503, 504]` of the `Retry` policy. -/
def statusForcelist : List Nat := [429, 500, 502, 503, 504]

/-- Outcome of one POST through the session's retry policy: success with the
final status after the given number of attempts, or `MaxRetryError`
(surfaced by `requests` as `RetryError`) after the given number of attempts. -/
inductive PostOutcome where
  | success (status : Nat) (attempts : Nat) : PostOutcome
  | retryError (attempts : Nat) : PostOutcome

/-- urllib3 retry loop: `attempt` is the 0-based index of the attempt being
made, `totalLeft` how many further retries `Retry.total` still allows. A
forcelisted status with no retries left raises `MaxRetryError`; a
forcelisted status with retries left consumes one and re-attempts; any
other status returns the response. -/
def sessionPostAux (server : Nat → Nat) : Nat → Nat → PostOutcome
  | attempt, 0 =>
    if server attempt ∈ statusForcelist then .retryError (attempt + 1)
    else .success (server attempt) (attempt + 1)
  | attempt, totalLeft + 1 =>
    if server attempt ∈ statusForcelist then sessionPostAux server (attempt + 1) totalLeft
    else .success (server attempt) (attempt + 1)

/-- A POST through the session built by `setup_session`, whose adapter is
configured with `Retry(total=5, ...)`: the initial attempt plus at most 5
retries. -/
def sessionPost (server : Nat → Nat) : PostOutcome :=
  sessionPostAux server 0 5

/-- Number of attempts actually made. -/
def attemptsOf : PostOutcome → Nat
  | .success _ n => n
  | .retryError n => n

/-- Bridge from the retry layer to `make_request`: a successful POST hands
the response (with the given reason phrase and body) to the rest of the
function; exhausted retries mean `session.post` raised `RetryError`. -/
def transportOfPost (po : PostOutcome) (reason : String) (lines : List StreamLine) :
    TransportOutcome :=
  match po with
  | .success status _ => .response status reason lines
  | .retryError _ => .exn .retryError

/-- A server that answers 503 on the first four attempts and 200 afterwards. -/
def srv503then200 : Nat → Nat := fun i => if i < 4 then 503 else 200

/-- A server that answers 503 on every attempt. -/
def srv503 : Nat → Nat := fun _ => 503

/-- A sample request payload (empty syllabus). -/
def sampleData : RequestData := create_request_data "hi" (JsonValue.obj [])

/-- Lines of fragments only, from (text, done) field pairs. -/
def fragLines (fs : List (Option String × Option Bool)) : List StreamLine :=
  fs.map fun q => StreamLine.frag q.1 q.2

/-! ### String and list helper lemmas -/

theorem str_append_assoc (a b c : String) : a ++ b ++ c = a ++ (b ++ c) := by
  cases a with
  | mk da =>
    cases b with
    | mk db =>
      cases c with
      | mk dc =>
        show String.mk ((da ++ db) ++ dc) = String.mk (da ++ (db ++ dc))
        rw [List.append_assoc]

theorem str_append_empty (s : String) : s ++ "" = s := by
  cases s with
  | mk d =>
    show String.mk (d ++ []) = String.mk d
    rw [List.append_nil]

theorem dropWhile_head?_false {p : α → Bool} {l : List α} {a : α}
    (h : (l.dropWhile p).head? = some a) : p a = false := by
  induction l with
  | nil => simp at h
  | cons b t ih =>
    by_cases hb : p b
    · rw [List.dropWhile_cons_of_pos hb] at h
      exact ih h
    · rw [List.dropWhile_cons_of_neg hb] at h
      simp only [List.head?_cons, Option.some.injEq] at h
      subst h
      exact Bool.eq_false_iff.mpr hb

theorem dropWhile_eq_self_of_head {p : α → Bool} {l : List α}
    (h : ∀ a, l.head? = some a → p a = false) : l.dropWhile p = l := by
  cases l with
  | nil => rfl
  | cons b t =>
    have hb : p b = false := h b rfl
    exact List.dropWhile_cons_of_neg (by simp [hb])

theorem dropWhile_getLast? {p : α → Bool} {l : List α}
    (h : l.dropWhile p ≠ []) : (l.dropWhile p).getLast? = l.getLast? := by
  induction l with
  | nil => simp at h
  | cons b t ih =>
    by_cases hb : p b
    · rw [List.dropWhile_cons_of_pos hb] at h ⊢
      have ht : t ≠ [] := by
        intro he
        subst he
        simp at h
      cases t with
      | nil => exact absurd rfl ht
      | cons c u => rw [ih h, List.getLast?_cons_cons]
    · rw [List.dropWhile_cons_of_neg hb]

theorem stripList_head?_false {s : List Char} {a : Char}
    (h : (stripList s).head? = some a) : pyIsSpace a = false := by
  unfold stripList at h
  rw [List.head?_reverse] at h
  have hne : (s.dropWhile pyIsSpace).reverse.dropWhile pyIsSpace ≠ [] := by
    intro he
    rw [he] at h
    simp at h
  rw [dropWhile_getLast? hne, List.getLast?_reverse] at h
  exact dropWhile_head?_false h

theorem stripList_getLast?_false {s : List Char} {a : Char}
    (h : (stripList s).getLast? = some a) : pyIsSpace a = false := by
  unfold stripList at h
  rw [List.getLast?_reverse] at h
  exact dropWhile_head?_false h

theorem stripList_idem (s : List Char) : stripList (stripList s) = stripList s := by
  have h1 : (stripList s).dropWhile pyIsSpace = stripList s :=
    dropWhile_eq_self_of_head (fun a ha => stripList_head?_false ha)
  have h2 : (stripList s).reverse.dropWhile pyIsSpace = (stripList s).reverse :=
    dropWhile_eq_self_of_head (fun a ha => by
      rw [List.head?_reverse] at ha
      exact stripList_getLast?_false ha)
  show ((((stripList s).dropWhile pyIsSpace).reverse).dropWhile pyIsSpace).reverse = stripList s
  rw [h1, h2, List.reverse_reverse]

theorem pyStrip_idem (s : String) : pyStrip (pyStrip s) = pyStrip s := by
  unfold pyStrip
  rw [stripList_idem]

/-! ### Streaming-loop lemmas -/

theorem fragLines_cons (q : Option String × Option Bool) (fs : List (Option String × Option Bool)) :
    fragLines (q :: fs) = StreamLine.frag q.1 q.2 :: fragLines fs := rfl

theorem iterStream_frag_cons (text : Option String) (done : Option Bool)
    (rest : List StreamLine) (acc : String) :
    iterStream (StreamLine.frag text done :: rest) acc =
      if done.getD false then some (acc ++ text.getD "")
      else iterStream rest (acc ++ text.getD "") := rfl

theorem iterStream_filter_malformed (lines : List StreamLine) :
    ∀ acc, iterStream (lines.filter fun l => !isMalformedLine l) acc = iterStream lines acc := by
  induction lines with
  | nil => intro acc; rfl
  | cons l rest ih =>
    intro acc
    cases l with
    | empty => simpa [List.filter, isMalformedLine, iterStream] using ih acc
    | decodeFail => simp [List.filter, isMalformedLine, iterStream]
    | jsonFail => simpa [List.filter, isMalformedLine, iterStream] using ih acc
    | frag text done =>
      simp only [List.filter, isMalformedLine, Bool.not_false, iterStream_frag_cons]
      cases hdone : done.getD false with
      | true => simp [hdone]
      | false => simpa [hdone] using ih (acc ++ text.getD "")

theorem iterStream_no_done (lines : List StreamLine)
    (hdec : StreamLine.decodeFail ∉ lines)
    (hdone : ∀ t d, StreamLine.frag t d ∈ lines → d.getD false = false) :
    ∀ acc, iterStream lines acc = some (acc ++ accText lines) := by
  induction lines with
  | nil => intro acc; rw [accText, str_append_empty, iterStream]
  | cons l rest ih =>
    have hdec' : StreamLine.decodeFail ∉ rest := fun h => hdec (List.mem_cons_of_mem _ h)
    have hdone' : ∀ t d, StreamLine.frag t d ∈ rest → d.getD false = false :=
      fun t d h => hdone t d (List.mem_cons_of_mem _ h)
    intro acc
    cases l with
    | empty => rw [iterStream, accText, ih hdec' hdone']
    | decodeFail => exact absurd (List.mem_cons_self _ _) hdec
    | jsonFail => rw [iterStream, accText, ih hdec' hdone']
    | frag text done =>
      have hd : done.getD false = false := hdone text done (List.mem_cons_self _ _)
      rw [iterStream_frag_cons, if_neg (by simp [hd]), accText,
        ih hdec' hdone', str_append_assoc]

theorem iterStream_all_parsed (fs : List (Option String × Option Bool)) (h : fs ≠ [])
    (hmid : ∀ q ∈ fs.dropLast, q.2.getD false = false)
    (hlast : (fs.getLast h).2.getD false = true) :
    ∀ acc, iterStream (fragLines fs) acc = some (acc ++ accText (fragLines fs)) := by
  induction fs with
  | nil => exact absurd rfl h
  | cons q rest ih =>
    intro acc
    cases rest with
    | nil =>
      have hd : q.2.getD false = true := hlast
      rw [fragLines_cons, iterStream_frag_cons, if_pos hd]
      rw [show accText (StreamLine.frag q.1 q.2 :: fragLines []) = q.1.getD "" ++ "" from rfl,
        str_append_empty]
    | cons q2 rest2 =>
      have hq : q.2.getD false = false := by
        apply hmid q
        rw [List.dropLast_cons₂]
        exact List.mem_cons_self _ _
      have hmid' : ∀ r ∈ (q2 :: rest2).dropLast, r.2.getD false = false := by
        intro r hr
        apply hmid r
        rw [List.dropLast_cons₂]
        exact List.mem_cons_of_mem _ hr
      have hlast' : ((q2 :: rest2).getLast (by simp)).2.getD false = true := by
        have he : (q :: q2 :: rest2).getLast h = (q2 :: rest2).getLast (by simp) :=
          List.getLast_cons (by simp)
        rw [← he]
        exact hlast
      rw [fragLines_cons, iterStream_frag_cons, if_neg (by simp [hq])]
      rw [ih (by simp) hmid' hlast' (acc ++ q.1.getD "")]
      rw [show accText (StreamLine.frag q.1 q.2 :: fragLines (q2 :: rest2))
            = q.1.getD "" ++ accText (fragLines (q2 :: rest2)) from rfl,
        str_append_assoc]

/-! ### Retry-policy lemmas -/

theorem sessionPostAux_step_retry (server : Nat → Nat) (a t : Nat)
    (h : server a ∈ statusForcelist) :
    sessionPostAux server a (t + 1) = sessionPostAux server (a + 1) t := by
  rw [sessionPostAux, if_pos h]

theorem sessionPostAux_step_exhaust (server : Nat → Nat) (a : Nat)
    (h : server a ∈ statusForcelist) :
    sessionPostAux server a 0 = PostOutcome.retryError (a + 1) := by
  rw [sessionPostAux, if_pos h]

theorem sessionPostAux_step_ok (server : Nat → Nat) (a t : Nat)
    (h : server a ∉ statusForcelist) :
    sessionPostAux server a t = PostOutcome.success (server a) (a + 1) := by
  cases t with
  | zero => rw [sessionPostAux, if_neg h]
  | succ t => rw [sessionPostAux, if_neg h]

theorem sessionPostAux_attempts_le (server : Nat → Nat) :
    ∀ t a, attemptsOf (sessionPostAux server a t) ≤ a + t + 1 := by
  intro t
  induction t with
  | zero =>
    intro a
    by_cases h : server a ∈ statusForcelist
    · rw [sessionPostAux_step_exhaust server a h]; exact Nat.le_refl _
    · rw [sessionPostAux_step_ok server a 0 h]; exact Nat.le_refl _
  | succ t ih =>
    intro a
    by_cases h : server a ∈ statusForcelist
    · rw [sessionPostAux_step_retry server a t h]
      calc attemptsOf (sessionPostAux server (a + 1) t) ≤ a + 1 + t + 1 := ih (a + 1)
        _ = a + (t + 1) + 1 := by omega
    · rw [sessionPostAux_step_ok server a (t + 1) h]
      show a + 1 ≤ a + (t + 1) + 1
      omega

/-- Evaluation of `make_request` on a 200 response: `raise_for_status` does
not raise and the result is the streaming loop's outcome. -/
theorem make_request_eval (url : String) (data : RequestData) (reason : String)
    (lines : List StreamLine) :
    make_request url data (TransportOutcome.response 200 reason lines) =
      match iterStream lines "" with
      | some acc => some [("text", pyStrip acc)]
      | none => none := rfl

theorem str_empty_append (s : String) : "" ++ s = s := by
  cases s with
  | mk d =>
    show String.mk ([] ++ d) = String.mk d
    rw [List.nil_append]

/-! ### Claim theorems -/

/-- C7 (confirmed): `create_request_data` is pure, always includes the
`model` and `prompt` fields, and includes the `syllabus` field iff the
supplied context is non-empty (Python-truthy; for a mapping, truthy means
non-empty). -/
theorem C7_create_request_data_fields (p : String) (c : JsonValue) :
    (create_request_data p c).model = MODEL_NAME ∧
    (create_request_data p c).prompt = p ∧
    ((create_request_data p c).syllabus = some c ↔ c.isTruthy = true) ∧
    ∀ fields : List (String × JsonValue),
      ((create_request_data p (JsonValue.obj fields)).syllabus).isSome = true ↔ fields ≠ [] := by
  refine ⟨rfl, rfl, ?_, ?_⟩
  · unfold create_request_data
    by_cases h : c.isTruthy
    · simp [h]
    · simp [h]
  · intro fields
    unfold create_request_data JsonValue.isTruthy
    cases fields with
    | nil => simp
    | cons f fs => simp

/-- C8 (confirmed): `load_syllabus_data` returns an empty context (and does
not raise) when the syllabus file is absent or its content is malformed; on
success it returns the parsed value. -/
theorem C8_load_syllabus_recovers :
    load_syllabus_data FileReadOutcome.absent = JsonValue.obj [] ∧
    load_syllabus_data (FileReadOutcome.content none) = JsonValue.obj [] ∧
    ∀ v, load_syllabus_data (FileReadOutcome.content (some v)) = v :=
  ⟨rfl, rfl, fun _ => rfl⟩

/-- C2 (confirmed): the streaming loop stops at the first fragment whose
`done` field is true, appending that fragment's text first and ignoring all
later lines; the three-line example accumulates exactly "AB". -/
theorem C2_done_stops_stream :
    (∀ (text : Option String) (rest : List StreamLine) (acc : String),
      iterStream (StreamLine.frag text (some true) :: rest) acc
        = some (acc ++ text.getD "")) ∧
    make_request OLLAMA_URL sampleData (TransportOutcome.response 200 "OK"
      [StreamLine.frag (some "A") (some false), StreamLine.frag (some "B") (some true),
       StreamLine.frag (some "C") (some false)]) = some [("text", "AB")] :=
  ⟨fun _ _ _ => rfl, rfl⟩

/-- C4 (confirmed): removing the JSON-malformed lines of a stream does not
change the result of `make_request`: malformed lines are skipped and never
abort consumption of the rest of the stream. -/
theorem C4_malformed_skipping_noop (url : String) (data : RequestData)
    (status : Nat) (reason : String) (lines : List StreamLine) :
    make_request url data (TransportOutcome.response status reason
      (lines.filter fun l => !isMalformedLine l)) =
    make_request url data (TransportOutcome.response status reason lines) := by
  cases hr : raise_for_status status reason url with
  | none => simp only [make_request, hr, iterStream_filter_malformed]
  | some detail => simp only [make_request, hr]

/-- C5 counterexample: a line whose bytes fail UTF-8 decoding is NOT treated
like a JSON parse failure — on the same stream, the decode failure makes the
uncaught exception escape `make_request` (`none`), while the JSON failure is
skipped and the stream is still consumed. -/
theorem C5_cex_decode_vs_json :
    make_request OLLAMA_URL sampleData (TransportOutcome.response 200 "OK"
      [StreamLine.decodeFail, StreamLine.frag (some "A") (some true)]) = none ∧
    make_request OLLAMA_URL sampleData (TransportOutcome.response 200 "OK"
      [StreamLine.jsonFail, StreamLine.frag (some "A") (some true)])
      = some [("text", "A")] :=
  ⟨rfl, rfl⟩

/-- C5 (corrected): `except json.JSONDecodeError` does not catch
`UnicodeDecodeError`, so a line whose bytes fail text decoding aborts the
stream with an exception escaping `make_request`, whereas a JSON parse
failure is logged, skipped, and consumption continues. -/
theorem C5_amended_decode_failure_uncaught (rest : List StreamLine) (acc : String)
    (url : String) (data : RequestData) (reason : String) :
    iterStream (StreamLine.decodeFail :: rest) acc = none ∧
    iterStream (StreamLine.jsonFail :: rest) acc = iterStream rest acc ∧
    make_request url data (TransportOutcome.response 200 reason
      (StreamLine.decodeFail :: rest)) = none :=
  ⟨rfl, rfl, rfl⟩

/-- C6 counterexample: a stream consisting of one undecodable line contains
no fragment with `done=true` and has zero valid lines, yet `make_request`
does not return an empty accumulated string — the uncaught decode exception
escapes instead. -/
theorem C6_cex_undecodable_line :
    make_request OLLAMA_URL sampleData (TransportOutcome.response 200 "OK"
      [StreamLine.decodeFail]) = none ∧
    (none : Option (List (String × String))) ≠ some [("text", "")] :=
  ⟨rfl, by simp⟩

/-- C6 (corrected): for every stream with no undecodable line in which no
fragment has `done=true`, `make_request` drains the stream to exhaustion and
returns the accumulated text (possibly empty) as a success; with zero valid
lines the accumulated string is empty. -/
theorem C6_amended_drain_without_done (lines : List StreamLine)
    (hdec : StreamLine.decodeFail ∉ lines)
    (hdone : ∀ t d, StreamLine.frag t d ∈ lines → d.getD false = false)
    (data : RequestData) (reason : String) (url : String) :
    make_request url data (TransportOutcome.response 200 reason lines)
      = some [("text", pyStrip (accText lines))] := by
  rw [make_request_eval, iterStream_no_done lines hdec hdone ""]
  show some [("text", pyStrip ("" ++ accText lines))] = _
  rw [str_empty_append]

/-- C6 witness: a stream whose only line is JSON-malformed has zero valid
lines and yields the empty accumulated string, not an error. -/
theorem C6_amended_drain_without_done_witness :
    make_request OLLAMA_URL sampleData (TransportOutcome.response 200 "OK"
      [StreamLine.jsonFail]) = some [("text", "")] := by
  have h := C6_amended_drain_without_done [StreamLine.jsonFail] (by decide)
    (by intro t d hm; simp at hm) sampleData "OK" OLLAMA_URL
  exact h

/-- C3 counterexample: in the two-line stream whose lines all parse and whose
last line has `done=true` but whose first line also has `done=true`, the
result is "A", not the trimmed concatenation "AB" of all texts. -/
theorem C3_cex_mid_done :
    make_request OLLAMA_URL sampleData (TransportOutcome.response 200 "OK"
      (fragLines [(some "A", some true), (some "B", some true)]))
      = some [("text", "A")] ∧
    pyStrip (accText (fragLines [(some "A", some true), (some "B", some true)])) = "AB" ∧
    some [("text", ("A" : String))] ≠ some [("text", ("AB" : String))] :=
  ⟨rfl, rfl, by decide⟩

/-- C3 (corrected): for every non-empty stream in which every line parses,
no line before the last has `done=true`, and the last line has `done=true`,
`make_request` returns the ordered concatenation of the texts,
whitespace-trimmed at both ends. -/
theorem C3_amended_full_concat (fs : List (Option String × Option Bool)) (h : fs ≠ [])
    (hmid : ∀ q ∈ fs.dropLast, q.2.getD false = false)
    (hlast : (fs.getLast h).2.getD false = true)
    (data : RequestData) (reason : String) (url : String) :
    make_request url data (TransportOutcome.response 200 reason (fragLines fs))
      = some [("text", pyStrip (accText (fragLines fs)))] := by
  rw [make_request_eval, iterStream_all_parsed fs h hmid hlast ""]
  show some [("text", pyStrip ("" ++ accText (fragLines fs)))] = _
  rw [str_empty_append]

/-- C3 witness: the well-formed two-line stream accumulates "AB". -/
theorem C3_amended_full_concat_witness :
    make_request OLLAMA_URL sampleData (TransportOutcome.response 200 "OK"
      (fragLines [(some "A", some false), (some "B", some true)]))
      = some [("text", "AB")] := by
  have h := C3_amended_full_concat [(some "A", some false), (some "B", some true)]
    (by simp) (by decide) (by decide) sampleData "OK" OLLAMA_URL
  exact h

/-- C1 counterexample: against a server answering 503 on every attempt (so in
particular on six consecutive attempts), the session makes 6 attempts, not
5, and the failure surfaces through the generic `RequestException` branch
("An unexpected error occurred."), not as the `HTTPError` message. -/
theorem C1_cex_six_attempts :
    sessionPost srv503 = PostOutcome.retryError 6 ∧
    attemptsOf (sessionPost srv503) ≠ 5 ∧
    make_request OLLAMA_URL sampleData
        (transportOfPost (sessionPost srv503) "Service Unavailable" [])
      = some [("error", "An unexpected error occurred.")] :=
  ⟨rfl, by decide, rfl⟩

/-- C1 (corrected): `Retry(total=5)` allows the initial attempt plus five
retries, so at most 6 attempts total; a server returning 503 on the first
four attempts and 200 on the fifth succeeds after 5 attempts; a server
returning 503 on six consecutive attempts exhausts the retries after exactly
6 attempts, and the resulting `RetryError` is surfaced by `make_request` as
the generic message, not as `HttpError`. -/
theorem C1_amended_retry_policy (server : Nat → Nat) :
    attemptsOf (sessionPost server) ≤ 6 ∧
    ((∀ i, i < 4 → server i = 503) → server 4 = 200 →
      sessionPost server = PostOutcome.success 200 5) ∧
    ((∀ i, i < 6 → server i = 503) →
      sessionPost server = PostOutcome.retryError 6 ∧
      ∀ (data : RequestData) (reason : String) (lines : List StreamLine),
        make_request OLLAMA_URL data (transportOfPost (sessionPost server) reason lines)
          = some [("error", "An unexpected error occurred.")]) := by
  refine ⟨?_, ?_, ?_⟩
  · have h := sessionPostAux_attempts_le server 5 0
    simpa [sessionPost] using h
  · intro h4 h200
    have m0 : server 0 ∈ statusForcelist := by rw [h4 0 (by omega)]; decide
    have m1 : server 1 ∈ statusForcelist := by rw [h4 1 (by omega)]; decide
    have m2 : server 2 ∈ statusForcelist := by rw [h4 2 (by omega)]; decide
    have m3 : server 3 ∈ statusForcelist := by rw [h4 3 (by omega)]; decide
    have m4 : server 4 ∉ statusForcelist := by rw [h200]; decide
    show sessionPostAux server 0 (4 + 1) = PostOutcome.success 200 5
    rw [sessionPostAux_step_retry server 0 4 m0]
    show sessionPostAux server 1 (3 + 1) = PostOutcome.success 200 5
    rw [sessionPostAux_step_retry server 1 3 m1]
    show sessionPostAux server 2 (2 + 1) = PostOutcome.success 200 5
    rw [sessionPostAux_step_retry server 2 2 m2]
    show sessionPostAux server 3 (1 + 1) = PostOutcome.success 200 5
    rw [sessionPostAux_step_retry server 3 1 m3]
    show sessionPostAux server 4 1 = PostOutcome.success 200 5
    rw [sessionPostAux_step_ok server 4 1 m4, h200]
  · intro h6
    have m : ∀ i, i < 6 → server i ∈ statusForcelist := by
      intro i hi
      rw [h6 i hi]
      decide
    have hs : sessionPost server = PostOutcome.retryError 6 := by
      show sessionPostAux server 0 (4 + 1) = PostOutcome.retryError 6
      rw [sessionPostAux_step_retry server 0 4 (m 0 (by omega))]
      show sessionPostAux server 1 (3 + 1) = PostOutcome.retryError 6
      rw [sessionPostAux_step_retry server 1 3 (m 1 (by omega))]
      show sessionPostAux server 2 (2 + 1) = PostOutcome.retryError 6
      rw [sessionPostAux_step_retry server 2 2 (m 2 (by omega))]
      show sessionPostAux server 3 (1 + 1) = PostOutcome.retryError 6
      rw [sessionPostAux_step_retry server 3 1 (m 3 (by omega))]
      show sessionPostAux server 4 (0 + 1) = PostOutcome.retryError 6
      rw [sessionPostAux_step_retry server 4 0 (m 4 (by omega))]
      show sessionPostAux server 5 0 = PostOutcome.retryError 6
      rw [sessionPostAux_step_exhaust server 5 (m 5 (by omega))]
    refine ⟨hs, ?_⟩
    intro data reason lines
    rw [hs]
    rfl

/-- C1 witness: the two concrete servers of the claim, run through the
session's retry policy. -/
theorem C1_amended_retry_policy_witness :
    sessionPost srv503then200 = PostOutcome.success 200 5 ∧
    sessionPost srv503 = PostOutcome.retryError 6 := by
  constructor
  · exact (C1_amended_retry_policy srv503then200).2.1
      (fun i hi => by simp [srv503then200, hi]) rfl
  · exact ((C1_amended_retry_policy srv503).2.2 (fun i hi => rfl)).1

/-- C9 (confirmed): each transport failure kind is mapped to its fixed
single-line message, and every surfaced error is returned by `chat_with_gpt`
as plain text prefixed "An error occurred: " (a normal return value, not a
raised exception). -/
theorem C9_error_classifier (p : String) (c : JsonValue) (detail reason : String)
    (status : Nat) (lines : List StreamLine) :
    chat_with_gpt p c (TransportOutcome.exn (RequestsException.httpError detail))
      = some ("An error occurred: HTTP error: " ++ detail) ∧
    chat_with_gpt p c (TransportOutcome.exn RequestsException.connectionError)
      = some "An error occurred: Connection error. Please check if the Ollama server is running." ∧
    chat_with_gpt p c (TransportOutcome.exn RequestsException.timeout)
      = some "An error occurred: The request timed out. Please try again later." ∧
    chat_with_gpt p c (TransportOutcome.exn RequestsException.retryError)
      = some "An error occurred: An unexpected error occurred." ∧
    chat_with_gpt p c (TransportOutcome.exn RequestsException.otherRequestError)
      = some "An error occurred: An unexpected error occurred." ∧
    (500 ≤ status → status < 600 →
      chat_with_gpt p c (TransportOutcome.response status reason lines)
        = some ("An error occurred: HTTP error: " ++ (toString status
            ++ " Server Error: " ++ reason ++ " for url: " ++ OLLAMA_URL))) := by
  refine ⟨?_, rfl, rfl, rfl, rfl, ?_⟩
  · show some ("An error occurred: " ++ ("HTTP error: " ++ detail))
      = some ("An error occurred: HTTP error: " ++ detail)
    rw [show ("An error occurred: HTTP error: " : String)
        = "An error occurred: " ++ "HTTP error: " from rfl, str_append_assoc]
  · intro h5 h6
    have hr : raise_for_status status reason OLLAMA_URL
        = some (toString status ++ " Server Error: " ++ reason ++ " for url: "
            ++ OLLAMA_URL) := by
      unfold raise_for_status
      rw [if_neg (by omega), if_pos (by omega)]
    have hm : make_request OLLAMA_URL (create_request_data p c)
        (TransportOutcome.response status reason lines)
        = some [("error", "HTTP error: " ++ (toString status ++ " Server Error: "
            ++ reason ++ " for url: " ++ OLLAMA_URL))] := by
      simp only [make_request]
      rw [hr]
    simp only [chat_with_gpt]
    rw [hm]
    show some ("An error occurred: " ++ ("HTTP error: " ++ (toString status
        ++ " Server Error: " ++ reason ++ " for url: " ++ OLLAMA_URL))) = _
    rw [show ("An error occurred: HTTP error: " : String)
        = "An error occurred: " ++ "HTTP error: " from rfl]
    simp only [str_append_assoc]

/-- C9 witness: a 503 response after exhausted transport-session retries is
surfaced as the prefixed HTTP error message. -/
theorem C9_error_classifier_witness :
    (500 ≤ 503 ∧ 503 < 600) ∧
    chat_with_gpt "hi" (JsonValue.obj [])
        (TransportOutcome.response 503 "Service Unavailable" [])
      = some ("An error occurred: HTTP error: " ++ (toString 503
          ++ " Server Error: " ++ "Service Unavailable" ++ " for url: " ++ OLLAMA_URL)) :=
  ⟨by decide,
    (C9_error_classifier "hi" (JsonValue.obj []) "x" "Service Unavailable" 503 []).2.2.2.2.2
      (by decide) (by decide)⟩

/-- C10 (confirmed): whenever `make_request` completes without a transport
failure (it returns a record with no `error` key), the record contains the
`text` key, so the fallback "No response text found." of `chat_with_gpt` is
never used, and the non-error value `chat_with_gpt` returns is exactly that
text, which has no leading or trailing whitespace (it is a `pyStrip` fixed
point). -/
theorem C10_text_key_always_present (p : String) (c : JsonValue) (t : TransportOutcome)
    (rd : List (String × String))
    (hm : make_request OLLAMA_URL (create_request_data p c) t = some rd)
    (he : rd.lookup "error" = none) :
    ∃ s, rd.lookup "text" = some s ∧ chat_with_gpt p c t = some s ∧ pyStrip s = s := by
  cases t with
  | exn e =>
    have hm' := hm
    simp only [make_request] at hm'
    obtain rfl : [("error", exceptionMessage e)] = rd := Option.some.inj hm'
    simp [List.lookup] at he
  | response status reason lines =>
    cases hr : raise_for_status status reason OLLAMA_URL with
    | some detail =>
      have hm' := hm
      simp only [make_request, hr] at hm'
      obtain rfl : [("error", "HTTP error: " ++ detail)] = rd := Option.some.inj hm'
      simp [List.lookup] at he
    | none =>
      cases hs : iterStream lines "" with
      | none =>
        have hm' := hm
        simp only [make_request, hr, hs] at hm'
        exact absurd hm' (by simp)
      | some acc =>
        have hm' := hm
        simp only [make_request, hr, hs] at hm'
        obtain rfl : [("text", pyStrip acc)] = rd := Option.some.inj hm'
        refine ⟨pyStrip acc, by simp [List.lookup], ?_, pyStrip_idem acc⟩
        simp only [chat_with_gpt]
        rw [hm]
        show some (pyStrip (pyStrip acc)) = some (pyStrip acc)
        rw [pyStrip_idem]

/-- C10 witness: a one-fragment stream whose text carries surrounding
whitespace; the record has the `text` key and `chat_with_gpt` returns the
trimmed text. -/
theorem C10_text_key_always_present_witness :
    make_request OLLAMA_URL (create_request_data "hi" JsonValue.null)
        (TransportOutcome.response 200 "OK" [StreamLine.frag (some " hi ") (some true)])
      = some [("text", "hi")] ∧
    chat_with_gpt "hi" JsonValue.null
        (TransportOutcome.response 200 "OK" [StreamLine.frag (some " hi ") (some true)])
      = some "hi" := by
  refine ⟨rfl, ?_⟩
  obtain ⟨s, hs1, hs2, hs3⟩ := C10_text_key_always_present "hi" JsonValue.null
    (TransportOutcome.response 200 "OK" [StreamLine.frag (some " hi ") (some true)])
    [("text", "hi")] rfl rfl
  simp [List.lookup] at hs1
  rw [← hs1] at hs2
  exact hs2
